import Mathlib

/-!
Shallow embedding of the clinical-dashboard repository (dash app: `main.py`,
`dashboard.py`, `login.py`, `src/dashboard.py`).

Conventions of the embedding:
* pandas cell values are modelled by `Val`: `Val.na` is a missing value (NaN),
  `Val.str` a string cell, `Val.num` a numeric cell (Python floats are modelled
  by exact rationals; the claims under study are about the exact formulas).
* Python float values produced by `float(...)` are modelled by `PFloat`, which
  keeps the non-signalling `nan` value with its Python comparison semantics
  (every comparison with `nan` is false) and nan-propagating arithmetic.
* String-processing helpers (`lower`, `strip`, `replace(',', '.')`,
  lexicographic comparison) are implemented structurally over `String.data` so
  that concrete instances evaluate inside the kernel.
* A pandas DataFrame is a `Frame`: the column list of the frame plus a list of
  rows; a row stores its `Source_File` tag and an association list of cells.
  A cell absent from a row's association list is the missing value `Val.na`,
  matching `pd.concat`'s filling of absent columns with NaN.
* `sort_values` is modelled by a stable insertion sort whose comparator places
  missing keys last (pandas `na_position='last'`, both ascending and
  descending); the claims proved about sort results only concern sortedness
  and multiset equality, which hold for the source's sort as well.
-/

inductive Val where
  | na : Val
  | str : String → Val
  | num : ℚ → Val
deriving DecidableEq, Repr

/-- Python float results: either a real (finite) number or `nan`.
`float('inf')` never arises in the embedded fragments. -/
inductive PFloat where
  | nan : PFloat
  | num : ℚ → PFloat
deriving DecidableEq, Repr

/-- Python `<=` on floats: any comparison with `nan` is `False`. -/
def PFloat.leB : PFloat → PFloat → Bool
  | PFloat.num a, PFloat.num b => decide (a ≤ b)
  | _, _ => false

def PFloat.add : PFloat → PFloat → PFloat
  | PFloat.num a, PFloat.num b => PFloat.num (a + b)
  | _, _ => PFloat.nan

def PFloat.sub : PFloat → PFloat → PFloat
  | PFloat.num a, PFloat.num b => PFloat.num (a - b)
  | _, _ => PFloat.nan

def PFloat.mul : PFloat → PFloat → PFloat
  | PFloat.num a, PFloat.num b => PFloat.num (a * b)
  | _, _ => PFloat.nan

/-- Division; the zero-denominator case is unreachable in the embedded code
(the gauge divides by `max_norm - min_norm` only after `max_norm <= min_norm`
failed on real numbers). -/
def PFloat.div : PFloat → PFloat → PFloat
  | PFloat.num a, PFloat.num b => if b = 0 then PFloat.nan else PFloat.num (a / b)
  | _, _ => PFloat.nan

def digitsToNat (cs : List Char) : ℕ :=
  cs.foldl (fun acc c => 10 * acc + (c.toNat - 48)) 0

/-- The decimal fragment of Python `float(...)` string parsing:
`digits`, `digits '.' digits?`, `'.' digits`, with an optional sign handled by
`parseDecimal`.  (Exponents, `inf`/`nan` literals, underscores and surrounding
whitespace, which Python also accepts, do not occur in the data handled by the
dashboard and are left out of the model.) -/
def parseUnsignedDecimal (cs : List Char) : Option ℚ :=
  let intPart := cs.takeWhile Char.isDigit
  let rest := cs.dropWhile Char.isDigit
  match rest with
  | [] => if intPart.isEmpty then none else some ((digitsToNat intPart : ℕ) : ℚ)
  | '.' :: frac =>
    if frac.all Char.isDigit && !(intPart.isEmpty && frac.isEmpty) then
      some (((digitsToNat intPart : ℕ) : ℚ) + ((digitsToNat frac : ℕ) : ℚ) / (10 : ℚ) ^ frac.length)
    else none
  | _ => none

def parseDecimal (s : String) : Option ℚ :=
  match s.data with
  | '-' :: rest => (parseUnsignedDecimal rest).map (fun q => -q)
  | '+' :: rest => parseUnsignedDecimal rest
  | cs => parseUnsignedDecimal cs

/-- `str(value).replace(',', '.')` for a one-character pattern is a character map. -/
def replaceCommaDot (s : String) : String :=
  String.mk (s.data.map (fun c => if c = ',' then '.' else c))

/-- `_to_float` of `dashboard.py` / `src/dashboard.py`:

    def _to_float(value):
        if value is None or value == '':
            return None
        try:
            return float(str(value).replace(',', '.'))
        except ValueError:
            return None

The input is `row.get(key)`: `none` models a `None` result (key absent),
`Val.na` a NaN cell.  Note `float(str(nan))` is `nan`, not an error, so a NaN
cell yields `some PFloat.nan`, and `float(str(x))` of a float `x` is `x`. -/
def to_float : Option Val → Option PFloat
  | none => none
  | some Val.na => some PFloat.nan
  | some (Val.num q) => some (PFloat.num q)
  | some (Val.str s) =>
    if s = "" then none
    else (parseDecimal (replaceCommaDot s)).map PFloat.num

/-- `row.get(key)` on a pandas `Series` row: `None` when the key is absent. -/
def rowGet (row : List (String × Val)) (key : String) : Option Val :=
  row.lookup key

/-- The rendered output of `build_range_gauge`: either the
`'Нет данных по показателю ...'` placeholder div, or the gauge bar whose marker
is placed at `position` (rendered as `f'{position:.2f}%'`) and which displays
the value and the two bounds. -/
inductive GaugeView where
  | noData (title : String)
  | bar (position : PFloat) (value min_norm max_norm : PFloat) (title : String)
deriving DecidableEq, Repr

/-- `build_range_gauge(row, value_key, min_key, max_key, title)` of
`dashboard.py` (lines 28-42) / `src/dashboard.py` (lines 39-61):

    value = _to_float(row.get(value_key))
    min_norm = _to_float(row.get(min_key))
    max_norm = _to_float(row.get(max_key))
    if value is None or min_norm is None or max_norm is None or max_norm <= min_norm:
        return html.Div(f'Нет данных по показателю {title}', ...)
    if value <= min_norm:
        position = 0
    elif value >= max_norm:
        position = 100
    else:
        ratio = (value - min_norm) / (max_norm - min_norm)
        position = 33.3 + ratio * 33.4  # place within middle third

Markup and styling are abstracted into the `GaugeView` constructors. -/
def build_range_gauge (row : List (String × Val)) (value_key min_key max_key title : String) : GaugeView :=
  match to_float (rowGet row value_key), to_float (rowGet row min_key), to_float (rowGet row max_key) with
  | some value, some min_norm, some max_norm =>
    if PFloat.leB max_norm min_norm then GaugeView.noData title
    else if PFloat.leB value min_norm then
      GaugeView.bar (PFloat.num 0) value min_norm max_norm title
    else if PFloat.leB max_norm value then
      GaugeView.bar (PFloat.num 100) value min_norm max_norm title
    else
      GaugeView.bar
        (PFloat.add (PFloat.num 33.3)
          (PFloat.mul (PFloat.div (PFloat.sub value min_norm) (PFloat.sub max_norm min_norm)) (PFloat.num 33.4)))
        value min_norm max_norm title
  | _, _, _ => GaugeView.noData title

def build_hemoglobin_gauge (row : List (String × Val)) : GaugeView :=
  build_range_gauge row "Гемоглобин" "Гемоглобин мин норма" "Гемоглобин макс норма" "Гемоглобин"

def build_platelet_gauge (row : List (String × Val)) : GaugeView :=
  build_range_gauge row "Тромбоциты" "Тромбоциты мин норма" "Тромбоциты макс норма" "Тромбоциты"

/-- The position logic of `build_range_gauge` restricted to parsed real
numbers, as a plain rational-valued function (the branch structure is the
source's). -/
def gauge_position (value min_norm max_norm : ℚ) : ℚ :=
  if value ≤ min_norm then 0
  else if max_norm ≤ value then 100
  else 33.3 + (value - min_norm) / (max_norm - min_norm) * 33.4

/-- Whitespace-strip on both ends (`str.strip()` of Python, pandas `.str.strip()`). -/
def trimChars (cs : List Char) : List Char :=
  ((cs.dropWhile Char.isWhitespace).reverse.dropWhile Char.isWhitespace).reverse

/-- `df['Gender'].str.lower().str.strip()` of `main.py` line 153 applied to one
gender string.  (`Char.toLower` lowers the ASCII range; the repository's gender
values are ASCII.) -/
def gender_norm (gender : String) : String :=
  String.mk (trimChars (gender.data.map Char.toLower))

/-- `main.py` lines 152-155:

    df['Gender'] = df['Gender'].astype(str)
    df['Gender_Norm'] = df['Gender'].str.lower().str.strip()
    df['Age_Str'] = df['Age'].astype(str)
    df['Patient_Key'] = df['Age_Str'] + '|' + df['Gender_Norm']

`age_str` is the already-stringified age cell (`astype(str)`). -/
def patient_key (age_str gender : String) : String :=
  age_str ++ "|" ++ gender_norm gender

/-- Lexicographic comparison of character lists (the comparison underlying
Python/pandas string sorting by code point). -/
def lexLe : List Char → List Char → Bool
  | [], _ => true
  | _ :: _, [] => false
  | a :: as, b :: bs => if a = b then lexLe as bs else decide (a < b)

/-- Ordering used as a pandas sort key on a column of cells: missing values
rank last (pandas `na_position='last'`), otherwise numbers by value and
strings lexicographically.  (A column mixing numbers and strings would make
pandas raise; the rank tie-break below only keeps the relation total.) -/
def Val.keyLe : Val → Val → Bool
  | Val.num a, Val.num b => decide (a ≤ b)
  | Val.num _, _ => true
  | Val.str _, Val.num _ => false
  | Val.str a, Val.str b => lexLe a.data b.data
  | Val.str _, Val.na => true
  | Val.na, Val.na => true
  | Val.na, _ => false

/-- Sort-key comparator of `sort_values(by=..., ascending=False)`: values
descending, missing values last — pandas applies `na_position='last'`
regardless of `ascending`, so NaN dates trail the dated rows. -/
def descNaLast (a b : Val) : Bool :=
  match a, b with
  | Val.na, Val.na => true
  | Val.na, _ => false
  | _, Val.na => true
  | a, b => Val.keyLe b a

def insertBy (le : α → α → Bool) (a : α) : List α → List α
  | [] => [a]
  | b :: bs => if le a b then a :: b :: bs else b :: insertBy le a bs

/-- Stable insertion sort; models `DataFrame.sort_values` (and the sorted
order of `glob`).  The claims proved below about sorted output only use
sortedness and multiset equality, which the source's sort satisfies as well. -/
def sortBy (le : α → α → Bool) : List α → List α
  | [] => []
  | a :: as => insertBy le a (sortBy le as)

/-- One row of the merged table: the stamped `Source_File` tag plus the cells.
A key absent from `cells` is a missing value (`pd.concat` fills absent columns
with NaN). -/
structure Row where
  source : String
  cells : List (String × Val)
deriving DecidableEq, Repr

/-- `row[c]` in the merged frame: the stamped `Source_File` tag lives in
`Row.source` (the assignment `df_local['Source_File'] = name` overwrote any
native cell of that name), so reading the `Source_File` column yields the
stamp; any other key absent from `cells` is a missing value. -/
def Row.get (r : Row) (c : String) : Val :=
  if c = "Source_File" then Val.str r.source
  else (r.cells.lookup c).getD Val.na

/-- A DataFrame: its column list and its rows. -/
structure Frame where
  cols : List String
  rows : List Row
deriving DecidableEq, Repr

/-- Fixed-point rendering `f"{value:.2f}"` (rounding to hundredths). -/
def format_two_dec (q : ℚ) : String :=
  let n : ℤ := round (q * 100)
  let sign := if n < 0 then "-" else ""
  let m : ℕ := n.natAbs
  sign ++ toString (m / 100) ++ "." ++ (if m % 100 < 10 then "0" ++ toString (m % 100) else toString (m % 100))

/-- `format_value` of `dashboard.py` lines 128-133:

    if pd.isna(value): return 'N/A'
    if isinstance(value, float): return f"{value:.2f}"
    return str(value)
-/
def format_value : Val → String
  | Val.na => "N/A"
  | Val.num q => format_two_dec q
  | Val.str s => s

/-- The tuple of excluded columns in `build_patient_result_sections`
(`dashboard.py` lines 158-165). -/
def EXCLUDED_COLUMNS : List String :=
  ["ID", "Дата", "Date", "Имя", "Пол",
   "Гемоглобин", "Гемоглобин мин норма", "Гемоглобин макс норма",
   "Тромбоциты", "Тромбоциты мин норма", "Тромбоциты макс норма"]

/-- `date_column = 'Дата' if 'Дата' in patient_df.columns else ('Date' if 'Date' in patient_df.columns else None)`. -/
def dateColumn (cols : List String) : Option String :=
  if "Дата" ∈ cols then some "Дата"
  else if "Date" ∈ cols then some "Date"
  else none

/-- `patient_df.sort_values(by=date_column, ascending=False)` when a date
column exists, identity otherwise (`dashboard.py` lines 151-153): dates
descending with missing dates last (`na_position='last'`). -/
def sortPatientRows (f : Frame) : List Row :=
  match dateColumn f.cols with
  | some c => sortBy (fun r1 r2 => descNaLast (Row.get r1 c) (Row.get r2 c)) f.rows
  | none => f.rows

/-- The group keys of `patient_df.groupby('Source_File')`: the distinct source
tags, in sorted order (pandas sorts group keys). -/
def sourceKeys (rows : List Row) : List String :=
  sortBy (fun a b => lexLe a.data b.data) (rows.map Row.source).eraseDups

/-- `dashboard.py` lines 157-165: the display columns of one source are the
source's recorded native column list (falling back to the subset's columns
when the map has no entry) minus the excluded tuple. -/
def displayColumns (source_column_map : List (String × List String)) (f : Frame) (source : String) : List String :=
  ((source_column_map.lookup source).getD f.cols).filter (fun c => !(EXCLUDED_COLUMNS.contains c))

/-- One metric card: the column heading and the formatted value text. -/
structure Card where
  column : String
  text : String
deriving DecidableEq, Repr

/-- `dashboard.py` lines 170-185: one card per display column that is among
the frame's columns (`if column not in subset.columns: continue`), showing
`format_value(row[column])`. -/
def rowCards (f : Frame) (display_cols : List String) (r : Row) : List Card :=
  (display_cols.filter (fun c => f.cols.contains c)).map (fun c => ⟨c, format_value (r.get c)⟩)

/-- One `html.Details` block of a source section: the underlying row and its
cards (the summary line, gauges for blood files and styling are not needed by
the claims and are omitted). -/
structure RowBlock where
  row : Row
  cards : List Card
deriving DecidableEq, Repr

structure ResultSection where
  source : String
  blocks : List RowBlock
deriving DecidableEq, Repr

/-- `build_patient_result_sections(patient_df, source_column_map)` of
`dashboard.py` lines 147-230: `none` is the
`'Нет данных по выбранному пациенту.'` placeholder for an empty row set;
otherwise the rows are sorted descending by the date column (when one
exists), grouped by `Source_File`, and rendered as cards per row. -/
def build_patient_result_sections (f : Frame) (source_column_map : List (String × List String)) : Option (List ResultSection) :=
  if f.rows.isEmpty then none
  else
    let sorted := sortPatientRows f
    some ((sourceKeys sorted).map (fun s =>
      { source := s
        blocks := (sorted.filter (fun r => decide (r.source = s))).map
          (fun r => { row := r, cards := rowCards f (displayColumns source_column_map f s) r }) }))

/-- `REFERENCE_COLUMNS` of `src/dashboard.py` lines 24-27. -/
def REFERENCE_COLUMNS : List (String × (String × String)) :=
  [("Гемоглобин", ("Гемоглобин мин норма", "Гемоглобин макс норма")),
   ("Тромбоциты", ("Тромбоциты мин норма", "Тромбоциты макс норма"))]

/-- The figure returned by the history builder: the empty placeholder figure
(`empty_gauge_figure`) or a line figure with its data points and optional
min/max reference overlays. -/
inductive HistoryFig where
  | emptyFig (metric : String)
  | lineFig (points : List (Val × Val)) (minSeries maxSeries : Option (List (Val × Val)))
deriving DecidableEq, Repr

/-- `empty_gauge_figure(metric_name)` of `src/dashboard.py` lines 147-159. -/
def empty_gauge_figure (metric_name : String) : HistoryFig :=
  HistoryFig.emptyFig metric_name

/-- `_build_metric_history(records, source_name, metric_key)` of
`src/dashboard.py` lines 414-453:

    fig = empty_gauge_figure(metric_key)
    if not records: return fig
    df_local = pd.DataFrame(records)
    if 'Source_File' not in df_local.columns: return fig
    df_local = df_local[df_local['Source_File'] == source_name]
    if df_local.empty or metric_key not in df_local.columns: return fig
    date_col = 'Дата' if 'Дата' in df_local.columns else ('Date' if 'Date' in df_local.columns else None)
    if date_col is None: return fig
    df_local = df_local.dropna(subset=[metric_key])
    if df_local.empty: return fig
    df_local = df_local.sort_values(by=date_col)
    fig_obj = px.line(df_local, x=date_col, y=metric_key, ...)
    ref_cols = REFERENCE_COLUMNS.get(metric_key)
    if ref_cols:
        min_col, max_col = ref_cols
        if min_col in df_local.columns and not df_local[min_col].dropna().empty:
            fig_obj.add_scatter(x=df_local[date_col], y=df_local[min_col], ...)
        if max_col in df_local.columns and not df_local[max_col].dropna().empty:
            fig_obj.add_scatter(x=df_local[date_col], y=df_local[max_col], ...)
    return fig_obj

The stored records always carry the frame's column set, so `records` is a
`Frame`; the name drops the Python underscore prefix. -/
def build_metric_history (records : Frame) (source_name metric_key : String) : HistoryFig :=
  if records.rows.isEmpty then empty_gauge_figure metric_key
  else if !(records.cols.contains "Source_File") then empty_gauge_figure metric_key
  else
    let dfl := records.rows.filter (fun r => decide (r.source = source_name))
    if dfl.isEmpty || !(records.cols.contains metric_key) then empty_gauge_figure metric_key
    else
      match dateColumn records.cols with
      | none => empty_gauge_figure metric_key
      | some date_col =>
        let dfl2 := dfl.filter (fun r => decide (r.get metric_key ≠ Val.na))
        if dfl2.isEmpty then empty_gauge_figure metric_key
        else
          let sorted := sortBy (fun r1 r2 => Val.keyLe (r1.get date_col) (r2.get date_col)) dfl2
          let pts := sorted.map (fun r => (r.get date_col, r.get metric_key))
          match REFERENCE_COLUMNS.lookup metric_key with
          | none => HistoryFig.lineFig pts none none
          | some (min_col, max_col) =>
            HistoryFig.lineFig pts
              (if records.cols.contains min_col && sorted.any (fun r => decide (r.get min_col ≠ Val.na)) then
                some (sorted.map (fun r => (r.get date_col, r.get min_col)))
               else none)
              (if records.cols.contains max_col && sorted.any (fun r => decide (r.get max_col ≠ Val.na)) then
                some (sorted.map (fun r => (r.get date_col, r.get max_col)))
               else none)

/-- `set_selected_metric(clicks, current_metric)` of `src/dashboard.py` lines
477-483 (identical in `dashboard.py` lines 341-347):

    metric = ctx.triggered_id.get('metric') if isinstance(ctx.triggered_id, dict) else None
    if metric and metric in blood_df.columns:
        return metric
    return current_metric

`triggered_metric` is the `'metric'` entry of the triggering card's
pattern-matched id (`none` when there is no triggering id, in which case the
callback returns `no_update` and the store is likewise unchanged).  `metric and ...`
makes an empty-string metric falsy. -/
def set_selected_metric (blood_cols : List String) (triggered_metric : Option String) (current_metric : Option String) : Option String :=
  match triggered_metric with
  | none => current_metric
  | some metric => if metric ≠ "" ∧ blood_cols.contains metric then some metric else current_metric

/-- The component pair produced by `build_metric_gauge_block` of
`src/dashboard.py` lines 162-179: a toggle button showing the gauge and a
`dcc.Graph` with the empty figure, created with style `display: 'none'`
(`figure_visible = false`). -/
structure GaugeBlock where
  toggle_row : String
  toggle_metric : String
  toggle_source : String
  button_content : GaugeView
  figure : HistoryFig
  figure_visible : Bool
deriving DecidableEq, Repr

def build_metric_gauge_block (row : List (String × Val)) (row_identifier metric_id : String)
    (builder_func : List (String × Val) → GaugeView) (source_name : String) : GaugeBlock :=
  { toggle_row := row_identifier
    toggle_metric := metric_id
    toggle_source := source_name
    button_content := builder_func row
    figure := empty_gauge_figure metric_id
    figure_visible := false }

/-- `toggle_gauge_plot(n_clicks, records, button_id)` of `src/dashboard.py`
lines 455-469: returns the figure (always rebuilt from the stored records and
the id's source/metric) and its visibility (`shown` iff
`n_clicks and n_clicks % 2 == 1`).  `button_row` is the `'row'` entry of the
pattern-matched id; the callback body does not use it. -/
def toggle_gauge_plot (n_clicks : ℕ) (records : Frame) (button_row button_metric button_source : String) : HistoryFig × Bool :=
  (build_metric_history records button_source button_metric,
   decide (n_clicks ≠ 0) && decide (n_clicks % 2 = 1))

/-- The content of one tabular file as read from disk: its column list and,
per data row, the cells. -/
structure RawTable where
  cols : List String
  cells : List (List (String × Val))
deriving DecidableEq, Repr

/-- One file of the data directory: `parsed = none` models `pd.read_csv`
raising (the `except Exception: continue` path of `load_all_datasets`). -/
structure SourceFile where
  name : String
  parsed : Option RawTable
deriving DecidableEq, Repr

/-- `df_local['Source_File'] = csv_file.name`: every row of the file is
stamped with the file name; a native `Source_File` column's values are
overwritten by the assignment, so any such cell is dropped from the cell list
and the stamp lives in `Row.source`. -/
def tagRows (name : String) (t : RawTable) : List Row :=
  t.cells.map (fun cs => { source := name, cells := cs.filter (fun kv => decide (kv.1 ≠ "Source_File")) })

/-- `load_all_datasets(data_dir)` of `main.py` lines 31-49:

    frames = []
    column_map = {}
    if data_dir.exists():
        for csv_file in sorted(data_dir.glob('*.csv')):
            try:
                df_local = pd.read_csv(csv_file)
            except Exception:
                continue
            column_map[csv_file.name] = df_local.columns.tolist()
            df_local['Source_File'] = csv_file.name
            frames.append(df_local)
    if not frames:
        raise FileNotFoundError("No CSV files found inside the 'data' directory.")
    combined = pd.concat(frames, ignore_index=True)
    return combined.reset_index(drop=True), column_map

`files` are the directory's `*.csv` files; the combined frame is returned as
its row list. -/
def load_all_datasets (data_dir_exists : Bool) (files : List SourceFile) : Except String (List Row × List (String × List String)) :=
  let found := if data_dir_exists then sortBy (fun f1 f2 => lexLe f1.name.data f2.name.data) files else []
  let parsed := found.filterMap (fun f => f.parsed.map (fun t => (f.name, t)))
  if parsed.isEmpty then Except.error "No CSV files found inside the 'data' directory."
  else Except.ok ((parsed.map (fun nt => tagRows nt.1 nt.2)).flatten, parsed.map (fun nt => (nt.1, nt.2.cols)))

/-- Outcome of the startup block of `main.py` lines 140-150: either the
process prints a diagnostic and exits (no dashboard is served), or the app is
initialised with the loaded data. -/
inductive StartupResult where
  | aborted (message : String)
  | serving (rows : List Row) (column_map : List (String × List String)) (blood : RawTable)
deriving DecidableEq, Repr

/-- `main.py` lines 140-150:

    try:
        df, SOURCE_COLUMN_MAP = load_all_datasets(DATA_DIR)
    except FileNotFoundError as exc:
        print(f"Error: {exc}")
        exit()
    try:
        blood_df = pd.read_csv(DATA_DIR / 'blood_count_dataset.csv').reset_index(drop=True)
    except FileNotFoundError:
        print("Error: 'blood_count_dataset.csv' not found in the data directory.")
        exit()

`blood_file = none` models `blood_count_dataset.csv` being absent. -/
def startup_load (data_dir_exists : Bool) (files : List SourceFile) (blood_file : Option RawTable) : StartupResult :=
  match load_all_datasets data_dir_exists files with
  | Except.error e => StartupResult.aborted ("Error: " ++ e)
  | Except.ok (rows, column_map) =>
    match blood_file with
    | none => StartupResult.aborted "Error: 'blood_count_dataset.csv' not found in the data directory."
    | some b => StartupResult.serving rows column_map b

/-- Modelled from the spec: the tabular source loader of the
`src/dashboard.py` app variant.  That variant's entry point and file-reading
code are not among the sources (only its consumers are: `register_dashboard_callbacks`
receives the loaded `df`, `source_column_map` and `blood_df`, and
`BLOOD_FILES`/`URINE_FILES` declare `.xlsx` alongside `.csv` sources).  Per
the spec, delimiter selection is source-name-dependent — one known source is
read with a semicolon delimiter, the others with comma — and both delimited
text and spreadsheet files are accepted. -/
def SEMICOLON_SOURCES : List String :=
  ["анализ_крови.csv"]

/-- Modelled from the spec: the per-source delimiter rule of the loader (see
`SEMICOLON_SOURCES`). -/
def delimiter_for (source : String) : Char :=
  if source ∈ SEMICOLON_SOURCES then ';' else ','

/-- Modelled from the spec: the file types the loader accepts (delimited text
and spreadsheet). -/
def SUPPORTED_EXTENSIONS : List (List Char) :=
  [".csv".data, ".xlsx".data]

def suffixOfList (suffix cs : List Char) : Bool :=
  decide ((cs.reverse.take suffix.length).reverse = suffix)

/-- Modelled from the spec: whether the loader accepts a file name (see
`SEMICOLON_SOURCES`). -/
def accepts_file (name : String) : Bool :=
  SUPPORTED_EXTENSIONS.any (fun ext => suffixOfList ext name.data)

/-- Sample blood-count row used to instantiate the gauge theorems. -/
def sampleGaugeRow : List (String × Val) :=
  [("Гемоглобин", Val.num 13.2), ("Гемоглобин мин норма", Val.num 12), ("Гемоглобин макс норма", Val.num 16)]

/-- Sample two-row urine-source patient frame used to instantiate the
patient-view theorem. -/
def samplePatientFrame : Frame :=
  { cols := ["ID", "Дата", "Цвет", "Source_File"]
    rows :=
      [{ source := "анализ_мочи.csv"
         cells := [("ID", Val.str "1"), ("Дата", Val.str "2020-02-02"), ("Цвет", Val.str "желтый")] },
       { source := "анализ_мочи.csv"
         cells := [("ID", Val.str "1"), ("Дата", Val.str "2020-03-03"), ("Цвет", Val.na)] }] }

def sampleColumnMap : List (String × List String) :=
  [("анализ_мочи.csv", ["ID", "Дата", "Цвет"])]

/-- Sample patient record set used to instantiate the history-series theorem
(the spec's example dates/values: `2020-03-03` → 14,1 and `2020-02-02` → 13,2). -/
def sampleHistoryFrame : Frame :=
  { cols := ["ID", "Дата", "Гемоглобин", "Гемоглобин мин норма", "Гемоглобин макс норма", "Source_File"]
    rows :=
      [{ source := "анализ_крови.csv"
         cells := [("Дата", Val.str "2020-03-03"), ("Гемоглобин", Val.str "14,1"), ("Гемоглобин мин норма", Val.str "12,0")] },
       { source := "анализ_крови.csv"
         cells := [("Дата", Val.str "2020-02-02"), ("Гемоглобин", Val.str "13,2"), ("Гемоглобин мин норма", Val.str "12,0")] },
       { source := "анализ_крови.csv"
         cells := [("Дата", Val.str "2020-01-01")] },
       { source := "анализ_мочи.csv"
         cells := [("Дата", Val.str "2020-01-05"), ("Гемоглобин", Val.str "99")] }] }

/-- Sample directory contents used to instantiate the loader theorems: one
file that parses and one whose parse raises. -/
def sampleGoodTable : RawTable :=
  { cols := ["ID", "Hemoglobin"]
    cells := [[("ID", Val.str "1"), ("Hemoglobin", Val.str "13.2")]] }

def sampleGoodFile : SourceFile :=
  { name := "blood_count_dataset.csv", parsed := some sampleGoodTable }

def sampleBadFile : SourceFile :=
  { name := "broken.csv", parsed := none }

/-- A file whose native header already contains a `Source_File` column. -/
def sourceColFile : SourceFile :=
  { name := "a.csv"
    parsed := some { cols := ["Source_File", "X"]
                     cells := [[("Source_File", Val.str "native"), ("X", Val.str "1")]] } }

/-- Blood-count row whose value cell is missing (an empty CSV cell is NaN)
while both bounds are present with comma decimal separators. -/
def sampleNaNRow : List (String × Val) :=
  [("Гемоглобин", Val.na), ("Гемоглобин мин норма", Val.str "12,0"), ("Гемоглобин макс норма", Val.str "16,0")]

/-! Helper lemmas about the embedding's primitives. -/

theorem PFloat.leB_nan_left (b : PFloat) : PFloat.leB PFloat.nan b = false := by
  cases b <;> rfl

theorem PFloat.leB_nan_right (a : PFloat) : PFloat.leB a PFloat.nan = false := by
  cases a <;> rfl

theorem PFloat.leB_num (a b : ℚ) : PFloat.leB (PFloat.num a) (PFloat.num b) = decide (a ≤ b) := rfl

theorem PFloat.add_num (a b : ℚ) : PFloat.add (PFloat.num a) (PFloat.num b) = PFloat.num (a + b) := rfl

theorem PFloat.sub_num (a b : ℚ) : PFloat.sub (PFloat.num a) (PFloat.num b) = PFloat.num (a - b) := rfl

theorem PFloat.mul_num (a b : ℚ) : PFloat.mul (PFloat.num a) (PFloat.num b) = PFloat.num (a * b) := rfl

theorem PFloat.div_num (a b : ℚ) :
    PFloat.div (PFloat.num a) (PFloat.num b) = if b = 0 then PFloat.nan else PFloat.num (a / b) := rfl

theorem PFloat.sub_nan_left (b : PFloat) : PFloat.sub PFloat.nan b = PFloat.nan := by
  cases b <;> rfl

theorem PFloat.div_nan_left (b : PFloat) : PFloat.div PFloat.nan b = PFloat.nan := by
  cases b <;> rfl

theorem PFloat.mul_nan_left (b : PFloat) : PFloat.mul PFloat.nan b = PFloat.nan := by
  cases b <;> rfl

theorem PFloat.add_nan_right (a : PFloat) : PFloat.add a PFloat.nan = PFloat.nan := by
  cases a <;> rfl

theorem insertBy_perm (le : α → α → Bool) (a : α) : ∀ l : List α, List.Perm (insertBy le a l) (a :: l)
  | [] => List.Perm.refl _
  | b :: bs => by
    unfold insertBy
    by_cases h : le a b
    · simp [h]
    · simp only [h, if_false]
      exact ((insertBy_perm le a bs).cons b).trans (List.Perm.swap a b bs)

theorem sortBy_perm (le : α → α → Bool) : ∀ l : List α, List.Perm (sortBy le l) l
  | [] => List.Perm.refl _
  | a :: as => (insertBy_perm le a (sortBy le as)).trans ((sortBy_perm le as).cons a)

theorem pairwise_insertBy (le : α → α → Bool)
    (htrans : ∀ a b c, le a b = true → le b c = true → le a c = true)
    (htotal : ∀ a b, le a b = true ∨ le b a = true)
    (a : α) : ∀ {l : List α}, l.Pairwise (fun x y => le x y = true) →
      (insertBy le a l).Pairwise (fun x y => le x y = true)
  | [], _ => by simp [insertBy]
  | b :: bs, h => by
    rcases List.pairwise_cons.mp h with ⟨hb, hbs⟩
    unfold insertBy
    by_cases hab : le a b
    · simp only [hab, if_true]
      refine List.pairwise_cons.mpr ⟨?_, h⟩
      intro x hx
      rcases List.mem_cons.mp hx with rfl | hx
      · exact hab
      · exact htrans a b x hab (hb x hx)
    · have hba : le b a = true := (htotal a b).resolve_left (by simpa using hab)
      simp only [hab, if_false]
      refine List.pairwise_cons.mpr ⟨?_, pairwise_insertBy le htrans htotal a hbs⟩
      intro x hx
      rcases List.mem_cons.mp ((insertBy_perm le a bs).mem_iff.mp hx) with rfl | hx
      · exact hba
      · exact hb x hx

theorem pairwise_sortBy (le : α → α → Bool)
    (htrans : ∀ a b c, le a b = true → le b c = true → le a c = true)
    (htotal : ∀ a b, le a b = true ∨ le b a = true) :
    ∀ l : List α, (sortBy le l).Pairwise (fun x y => le x y = true)
  | [] => List.Pairwise.nil
  | a :: as => pairwise_insertBy le htrans htotal a (pairwise_sortBy le htrans htotal as)

theorem lexLe_total : ∀ x y : List Char, lexLe x y = true ∨ lexLe y x = true
  | [], _ => Or.inl rfl
  | _ :: _, [] => Or.inr rfl
  | a :: as, b :: bs => by
    by_cases hab : a = b
    · subst hab
      simpa [lexLe] using lexLe_total as bs
    · rcases lt_or_gt_of_ne hab with h | h
      · exact Or.inl (by simp [lexLe, hab, h])
      · exact Or.inr (by simp [lexLe, Ne.symm hab, h])

theorem lexLe_trans : ∀ x y z : List Char, lexLe x y = true → lexLe y z = true → lexLe x z = true
  | [], _, _, _, _ => rfl
  | _ :: _, [], _, h1, _ => by simp [lexLe] at h1
  | _ :: _, _ :: _, [], _, h2 => by simp [lexLe] at h2
  | a :: as, b :: bs, c :: cs, h1, h2 => by
    by_cases hab : a = b <;> by_cases hbc : b = c
    · subst hab; subst hbc
      simp only [lexLe, if_pos rfl] at h1 h2 ⊢
      exact lexLe_trans as bs cs h1 h2
    · subst hab
      simp only [lexLe, if_neg hbc, decide_eq_true_eq] at h2
      simp [lexLe, hbc, h2]
    · subst hbc
      simp only [lexLe, if_neg hab, decide_eq_true_eq] at h1
      simp [lexLe, hab, h1]
    · simp only [lexLe, if_neg hab, decide_eq_true_eq] at h1
      simp only [lexLe, if_neg hbc, decide_eq_true_eq] at h2
      have hac : a < c := lt_trans h1 h2
      simp [lexLe, ne_of_lt hac, hac]

theorem keyLe_total : ∀ a b : Val, Val.keyLe a b = true ∨ Val.keyLe b a = true := by
  intro a b
  cases a <;> cases b <;> simp [Val.keyLe]
  · exact lexLe_total _ _
  · exact le_total _ _

theorem keyLe_trans : ∀ a b c : Val, Val.keyLe a b = true → Val.keyLe b c = true → Val.keyLe a c = true := by
  intro a b c h1 h2
  cases a <;> cases b <;> cases c <;> simp_all [Val.keyLe]
  · exact lexLe_trans _ _ _ h1 h2
  · exact le_trans h1 h2

theorem append_sep_inj {sep : Char} : ∀ {l1 l2 r1 r2 : List Char}, sep ∉ l1 → sep ∉ l2 →
    l1 ++ sep :: r1 = l2 ++ sep :: r2 → l1 = l2 ∧ r1 = r2
  | [], [], r1, r2, _, _, h => by simpa using h
  | [], c :: l2, r1, r2, _, h2, h => by
    simp only [List.nil_append, List.cons_append, List.cons.injEq] at h
    exact absurd (h.1 ▸ List.mem_cons_self c l2) h2
  | c :: l1, [], r1, r2, h1, _, h => by
    simp only [List.nil_append, List.cons_append, List.cons.injEq] at h
    exact absurd (h.1.symm ▸ List.mem_cons_self c l1) h1
  | c1 :: l1, c2 :: l2, r1, r2, h1, h2, h => by
    simp only [List.cons_append, List.cons.injEq] at h
    obtain ⟨rfl, h'⟩ := h
    have ih := append_sep_inj (fun hm => h1 (List.mem_cons_of_mem _ hm))
      (fun hm => h2 (List.mem_cons_of_mem _ hm)) h'
    exact ⟨by rw [ih.1], ih.2⟩

theorem leB_num_false {a b : ℚ} (h : ¬ a ≤ b) : PFloat.leB (PFloat.num a) (PFloat.num b) = false := by
  rw [PFloat.leB_num]
  exact decide_eq_false h

theorem leB_num_true {a b : ℚ} (h : a ≤ b) : PFloat.leB (PFloat.num a) (PFloat.num b) = true := by
  rw [PFloat.leB_num]
  exact decide_eq_true h

theorem build_range_gauge_eval {row : List (String × Val)} {value_key min_key max_key title : String}
    {a b c : PFloat}
    (hv : to_float (rowGet row value_key) = some a)
    (hm : to_float (rowGet row min_key) = some b)
    (hx : to_float (rowGet row max_key) = some c) :
    build_range_gauge row value_key min_key max_key title =
      (if PFloat.leB c b then GaugeView.noData title
       else if PFloat.leB a b then GaugeView.bar (PFloat.num 0) a b c title
       else if PFloat.leB c a then GaugeView.bar (PFloat.num 100) a b c title
       else GaugeView.bar
         (PFloat.add (PFloat.num 33.3) (PFloat.mul (PFloat.div (PFloat.sub a b) (PFloat.sub c b)) (PFloat.num 33.4)))
         a b c title) := by
  unfold build_range_gauge
  rw [hv, hm, hx]

theorem build_range_gauge_num {row : List (String × Val)} {value_key min_key max_key title : String}
    {v mn mx : ℚ}
    (hv : to_float (rowGet row value_key) = some (PFloat.num v))
    (hm : to_float (rowGet row min_key) = some (PFloat.num mn))
    (hx : to_float (rowGet row max_key) = some (PFloat.num mx))
    (hlt : mn < mx) :
    build_range_gauge row value_key min_key max_key title
      = GaugeView.bar (PFloat.num (gauge_position v mn mx)) (PFloat.num v) (PFloat.num mn) (PFloat.num mx) title := by
  rw [build_range_gauge_eval hv hm hx, leB_num_false (not_le.mpr hlt)]
  have hne : mx - mn ≠ 0 := sub_ne_zero_of_ne (ne_of_gt hlt)
  unfold gauge_position
  by_cases h1 : v ≤ mn
  · rw [leB_num_true h1]
    simp [h1]
  · rw [leB_num_false h1]
    by_cases h2 : mx ≤ v
    · rw [leB_num_true h2]
      simp [h1, h2]
    · rw [leB_num_false h2]
      simp only [Bool.false_eq_true, if_false, PFloat.sub_num, PFloat.div_num, PFloat.mul_num,
        PFloat.add_num, if_neg hne, if_neg h1, if_neg h2, GaugeView.bar.injEq, PFloat.num.injEq]

theorem gauge_position_strict {v mn mx : ℚ} (h1 : mn < v) (h2 : v < mx) :
    gauge_position v mn mx = 33.3 + (v - mn) / (mx - mn) * 33.4
    ∧ 33.3 < gauge_position v mn mx ∧ gauge_position v mn mx < 66.7 := by
  have hd : 0 < mx - mn := by linarith
  have hfrac0 : 0 < (v - mn) / (mx - mn) := div_pos (by linarith) hd
  have hfrac1 : (v - mn) / (mx - mn) < 1 := (div_lt_one hd).mpr (by linarith)
  unfold gauge_position
  rw [if_neg (not_le.mpr h1), if_neg (not_le.mpr h2)]
  refine ⟨rfl, by nlinarith, by nlinarith⟩

theorem gauge_position_mono (mn mx : ℚ) (hlt : mn < mx) (v1 v2 : ℚ)
    (ha : mn ≤ v1) (hb : v1 ≤ v2) (hc : v2 ≤ mx) :
    gauge_position v1 mn mx ≤ gauge_position v2 mn mx := by
  have hd : 0 < mx - mn := by linarith
  unfold gauge_position
  by_cases q1 : v1 ≤ mn
  · rw [if_pos q1]
    by_cases q2 : v2 ≤ mn
    · rw [if_pos q2]
    · rw [if_neg q2]
      by_cases q3 : mx ≤ v2
      · rw [if_pos q3]
        norm_num
      · rw [if_neg q3]
        have hge : 0 ≤ (v2 - mn) / (mx - mn) := div_nonneg (by linarith [not_le.mp q2]) (le_of_lt hd)
        nlinarith
  · rw [if_neg q1]
    have hv2mn : ¬ v2 ≤ mn := fun hcon => q1 (le_trans hb hcon)
    by_cases q3 : mx ≤ v1
    · rw [if_pos q3, if_neg hv2mn, if_pos (le_trans q3 hb)]
    · rw [if_neg q3, if_neg hv2mn]
      by_cases q4 : mx ≤ v2
      · rw [if_pos q4]
        have hfrac1 : (v1 - mn) / (mx - mn) < 1 := (div_lt_one hd).mpr (by linarith [not_le.mp q3])
        have hfrac0 : 0 < (v1 - mn) / (mx - mn) := div_pos (by linarith [not_le.mp q1]) hd
        nlinarith
      · rw [if_neg q4]
        have hmono : (v1 - mn) / (mx - mn) ≤ (v2 - mn) / (mx - mn) :=
          (div_le_div_right hd).mpr (by linarith)
        nlinarith

/-- C1: for every input row whose value, min bound and max bound all parse as
numbers with max > min, `build_range_gauge` renders the bar with its marker at
`gauge_position`, which is 0 when value ≤ min, 100 when value ≥ max, and
otherwise `33.3 + (value - min) / (max - min) * 33.4`, strictly between the
gauge's own 1/3 and 2/3 boundary markers at 33.3 and 66.7 (the displayed
middle third of the [0,100] bar); the position is monotone non-decreasing in
the value over [min, max], and at `(13.2, 12, 16)` it is 43.32 ≈ 43.3. -/
theorem gauge_normalizer_spec (row : List (String × Val)) (value_key min_key max_key title : String)
    (v mn mx : ℚ)
    (hv : to_float (rowGet row value_key) = some (PFloat.num v))
    (hm : to_float (rowGet row min_key) = some (PFloat.num mn))
    (hx : to_float (rowGet row max_key) = some (PFloat.num mx))
    (hlt : mn < mx) :
    build_range_gauge row value_key min_key max_key title
      = GaugeView.bar (PFloat.num (gauge_position v mn mx)) (PFloat.num v) (PFloat.num mn) (PFloat.num mx) title
    ∧ (v ≤ mn → gauge_position v mn mx = 0)
    ∧ (mx ≤ v → gauge_position v mn mx = 100)
    ∧ (mn < v → v < mx →
        gauge_position v mn mx = 33.3 + (v - mn) / (mx - mn) * 33.4
        ∧ 33.3 < gauge_position v mn mx ∧ gauge_position v mn mx < 66.7)
    ∧ (∀ v1 v2 : ℚ, mn ≤ v1 → v1 ≤ v2 → v2 ≤ mx →
        gauge_position v1 mn mx ≤ gauge_position v2 mn mx)
    ∧ gauge_position 13.2 12 16 = 43.32
    ∧ |gauge_position 13.2 12 16 - 43.3| < 1/10 := by
  have hex : gauge_position 13.2 12 16 = 43.32 := by
    unfold gauge_position
    norm_num
  refine ⟨build_range_gauge_num hv hm hx hlt, ?_, ?_, ?_, gauge_position_mono mn mx hlt, hex, ?_⟩
  · intro h
    unfold gauge_position
    rw [if_pos h]
  · intro h
    unfold gauge_position
    rw [if_neg (not_le.mpr (lt_of_lt_of_le hlt h)), if_pos h]
  · intro h1 h2
    exact gauge_position_strict h1 h2
  · rw [hex]
    rw [show (43.32 : ℚ) - 43.3 = 0.02 by norm_num]
    rw [abs_of_nonneg (by norm_num)]
    norm_num

/-- Witness for C1 at the sample row (13.2, 12, 16). -/
theorem gauge_normalizer_spec_witness :
    (to_float (rowGet sampleGaugeRow "Гемоглобин") = some (PFloat.num 13.2)
      ∧ to_float (rowGet sampleGaugeRow "Гемоглобин мин норма") = some (PFloat.num 12)
      ∧ to_float (rowGet sampleGaugeRow "Гемоглобин макс норма") = some (PFloat.num 16)
      ∧ (12 : ℚ) < 16)
    ∧ (build_range_gauge sampleGaugeRow "Гемоглобин" "Гемоглобин мин норма" "Гемоглобин макс норма" "Гемоглобин"
        = GaugeView.bar (PFloat.num (gauge_position 13.2 12 16)) (PFloat.num 13.2) (PFloat.num 12) (PFloat.num 16) "Гемоглобин"
      ∧ ((13.2 : ℚ) ≤ 12 → gauge_position 13.2 12 16 = 0)
      ∧ ((16 : ℚ) ≤ 13.2 → gauge_position 13.2 12 16 = 100)
      ∧ ((12 : ℚ) < 13.2 → (13.2 : ℚ) < 16 →
          gauge_position 13.2 12 16 = 33.3 + (13.2 - 12) / (16 - 12) * 33.4
          ∧ 33.3 < gauge_position 13.2 12 16 ∧ gauge_position 13.2 12 16 < 66.7)
      ∧ (∀ v1 v2 : ℚ, 12 ≤ v1 → v1 ≤ v2 → v2 ≤ 16 →
          gauge_position v1 12 16 ≤ gauge_position v2 12 16)
      ∧ gauge_position 13.2 12 16 = 43.32
      ∧ |gauge_position 13.2 12 16 - 43.3| < 1/10) :=
  ⟨⟨rfl, rfl, rfl, by norm_num⟩,
   gauge_normalizer_spec sampleGaugeRow "Гемоглобин" "Гемоглобин мин норма" "Гемоглобин макс норма"
     "Гемоглобин" 13.2 12 16 rfl rfl rfl (by norm_num)⟩

/-- C2 (failing input): a blood row whose value cell is missing (NaN) while
both bounds are present.  `_to_float` returns `float(str(nan)) = nan` for the
NaN cell, every comparison with `nan` is false, so `build_range_gauge` falls
through every guard and computes `position = nan`, rendering a marker at CSS
position `'nan%'` — a computed marker, not the `'Нет данных'` placeholder the
spec requires for a missing value. -/
theorem gauge_missing_value_bug :
    build_range_gauge sampleNaNRow "Гемоглобин" "Гемоглобин мин норма" "Гемоглобин макс норма" "Гемоглобин"
      = GaugeView.bar PFloat.nan PFloat.nan (PFloat.num 12) (PFloat.num 16) "Гемоглобин" := by
  have hmn : to_float (rowGet sampleNaNRow "Гемоглобин мин норма") = some (PFloat.num 12) := by
    have h : to_float (rowGet sampleNaNRow "Гемоглобин мин норма")
        = some (PFloat.num (((12 : ℕ) : ℚ) + ((0 : ℕ) : ℚ) / (10 : ℚ) ^ 1)) := rfl
    rw [h]
    norm_num
  have hmx : to_float (rowGet sampleNaNRow "Гемоглобин макс норма") = some (PFloat.num 16) := by
    have h : to_float (rowGet sampleNaNRow "Гемоглобин макс норма")
        = some (PFloat.num (((16 : ℕ) : ℚ) + ((0 : ℕ) : ℚ) / (10 : ℚ) ^ 1)) := rfl
    rw [h]
    norm_num
  have hv : to_float (rowGet sampleNaNRow "Гемоглобин") = some PFloat.nan := rfl
  rw [build_range_gauge_eval hv hmn hmx, leB_num_false (by norm_num : ¬ (16 : ℚ) ≤ 12),
    PFloat.leB_nan_left, PFloat.leB_nan_right]
  simp [PFloat.sub_nan_left, PFloat.div_nan_left, PFloat.mul_nan_left, PFloat.add_nan_right]

/-- C3 (counterexample): the separator `'|'` is not guaranteed to be absent
from the fields; two rows whose (stringified age, normalized gender) pairs
differ can collide: key("1", "a|b") = "1|a|b" = key("1|a", "b"). -/
theorem patient_key_collision :
    patient_key "1" "a|b" = patient_key "1|a" "b"
    ∧ ("1", gender_norm "a|b") ≠ ("1|a", gender_norm "b") := by
  decide

/-- C3 (amended): the synthesized Patient Key is the pure function
`age_str ++ "|" ++ gender_norm gender` of the row's stringified age and
lower-cased, trimmed gender — so rows with equal age and case/whitespace-
insensitively equal gender always get identical keys — and, provided the
separator `'|'` occurs in neither field (as the spec assumes; this holds for
numeric ages and ordinary gender words), rows whose (stringified age,
normalized gender) pairs differ get distinct keys. -/
theorem patient_key_spec (a1 g1 a2 g2 : String)
    (h1 : '|' ∉ a1.data) (h2 : '|' ∉ a2.data)
    (h3 : '|' ∉ (gender_norm g1).data) (h4 : '|' ∉ (gender_norm g2).data) :
    patient_key a1 g1 = a1 ++ "|" ++ gender_norm g1
    ∧ (patient_key a1 g1 = patient_key a2 g2 ↔ (a1 = a2 ∧ gender_norm g1 = gender_norm g2)) := by
  refine ⟨rfl, ?_, ?_⟩
  · intro h
    have hbar : ("|" : String).data = ['|'] := rfl
    have hd : a1.data ++ '|' :: (gender_norm g1).data = a2.data ++ '|' :: (gender_norm g2).data := by
      have hc := congrArg String.data h
      simpa [patient_key, String.data_append, hbar] using hc
    obtain ⟨e1, e2⟩ := append_sep_inj h1 h2 hd
    exact ⟨String.ext e1, String.ext e2⟩
  · rintro ⟨rfl, e⟩
    unfold patient_key
    rw [e]

/-- Witness for C3 on two rows with equal age and case/whitespace-variant
genders. -/
theorem patient_key_spec_witness :
    ('|' ∉ ("30" : String).data ∧ '|' ∉ (gender_norm " MaLe").data ∧ '|' ∉ (gender_norm "male  ").data)
    ∧ (patient_key "30" " MaLe" = "30" ++ "|" ++ gender_norm " MaLe"
      ∧ (patient_key "30" " MaLe" = patient_key "30" "male  "
          ↔ (("30" : String) = "30" ∧ gender_norm " MaLe" = gender_norm "male  "))) :=
  ⟨⟨by decide, by decide, by decide⟩,
   patient_key_spec "30" " MaLe" "30" "male  " (by decide) (by decide) (by decide) (by decide)⟩

theorem descNaLast_total : ∀ a b : Val, descNaLast a b = true ∨ descNaLast b a = true := by
  intro a b
  cases a <;> cases b <;> simp [descNaLast, Val.keyLe]
  · exact lexLe_total _ _
  · exact le_total _ _

theorem descNaLast_trans :
    ∀ a b c : Val, descNaLast a b = true → descNaLast b c = true → descNaLast a c = true := by
  intro a b c h1 h2
  cases a <;> cases b <;> cases c <;> simp_all [descNaLast, Val.keyLe]
  · exact lexLe_trans _ _ _ h2 h1
  · exact le_trans h2 h1

theorem sortPatientRows_perm (f : Frame) : List.Perm (sortPatientRows f) f.rows := by
  unfold sortPatientRows
  cases dateColumn f.cols
  · exact List.Perm.refl _
  · exact sortBy_perm _ _

theorem sortPatientRows_pairwise (f : Frame) (c : String) (hc : dateColumn f.cols = some c) :
    (sortPatientRows f).Pairwise (fun r1 r2 => descNaLast (Row.get r1 c) (Row.get r2 c) = true) := by
  unfold sortPatientRows
  rw [hc]
  exact pairwise_sortBy (fun r1 r2 => descNaLast (Row.get r1 c) (Row.get r2 c))
    (fun a b d hab hbd => descNaLast_trans _ _ _ hab hbd)
    (fun a b => descNaLast_total (Row.get a c) (Row.get b c))
    f.rows

theorem sortPatientRows_of_none (f : Frame) (hc : dateColumn f.cols = none) :
    sortPatientRows f = f.rows := by
  unfold sortPatientRows
  rw [hc]

/-- C4: for every non-empty per-patient row set, `build_patient_result_sections`
returns display sections (never the empty-state placeholder); in each source
section the blocks' rows are exactly the patient's rows of that source, in
descending date order (missing dates last, pandas `na_position='last'`) when
a date column exists and in original order when none does; each block's card columns follow the source's recorded native
column list (a column outside that schema is silently dropped, never shown);
and a card's text is `format_value` of the row's cell, so a missing value
(present in schema, absent in the row) renders as the `'N/A'` placeholder. -/
theorem patient_sections_spec (f : Frame) (m : List (String × List String))
    (hne : f.rows ≠ []) :
    ∃ sections, build_patient_result_sections f m = some sections
    ∧ ∀ sec ∈ sections,
        List.Perm (sec.blocks.map RowBlock.row) (f.rows.filter (fun r => decide (r.source = sec.source)))
        ∧ (∀ c, dateColumn f.cols = some c →
            (sec.blocks.map RowBlock.row).Pairwise
              (fun r1 r2 => descNaLast (Row.get r1 c) (Row.get r2 c) = true))
        ∧ (dateColumn f.cols = none →
            sec.blocks.map RowBlock.row = f.rows.filter (fun r => decide (r.source = sec.source)))
        ∧ (∀ b ∈ sec.blocks,
            b.cards.map Card.column = (displayColumns m f sec.source).filter (fun c => f.cols.contains c))
        ∧ (∀ schema, m.lookup sec.source = some schema →
            ∀ b ∈ sec.blocks, ∀ card ∈ b.cards, card.column ∈ schema)
        ∧ (∀ b ∈ sec.blocks, ∀ card ∈ b.cards,
            card.text = format_value (b.row.get card.column)
            ∧ (b.row.get card.column = Val.na → card.text = "N/A")) := by
  have hne' : ¬ f.rows.isEmpty = true := by simpa [List.isEmpty_iff] using hne
  unfold build_patient_result_sections
  rw [if_neg hne']
  refine ⟨_, rfl, ?_⟩
  intro sec hsec
  obtain ⟨s, _, rfl⟩ := List.mem_map.mp hsec
  have hrows : (((sortPatientRows f).filter (fun r => decide (r.source = s))).map
      (fun r => ({ row := r, cards := rowCards f (displayColumns m f s) r } : RowBlock))).map RowBlock.row
      = (sortPatientRows f).filter (fun r => decide (r.source = s)) := by
    rw [List.map_map]
    exact List.map_id _
  refine ⟨?_, ?_, ?_, ?_, ?_, ?_⟩
  · rw [hrows]
    exact (sortPatientRows_perm f).filter _
  · intro c hc
    rw [hrows]
    exact (sortPatientRows_pairwise f c hc).sublist (List.filter_sublist _)
  · intro hc
    rw [hrows, sortPatientRows_of_none f hc]
  · intro b hb
    obtain ⟨r, _, rfl⟩ := List.mem_map.mp hb
    show (((displayColumns m f s).filter (fun c => f.cols.contains c)).map
      (fun c => ({ column := c, text := format_value (r.get c) } : Card))).map Card.column = _
    rw [List.map_map]
    exact List.map_id _
  · intro schema hschema b hb card hcard
    obtain ⟨r, _, rfl⟩ := List.mem_map.mp hb
    obtain ⟨c, hc, rfl⟩ := List.mem_map.mp hcard
    have hcd : c ∈ displayColumns m f s := (List.mem_filter.mp hc).1
    unfold displayColumns at hcd
    rw [hschema] at hcd
    exact (List.mem_filter.mp hcd).1
  · intro b hb card hcard
    obtain ⟨r, _, rfl⟩ := List.mem_map.mp hb
    obtain ⟨c, _, rfl⟩ := List.mem_map.mp hcard
    exact ⟨rfl, fun h => by simp [h, format_value]⟩

/-- Witness for C4 at the sample two-row urine-source frame. -/
theorem patient_sections_spec_witness :
    samplePatientFrame.rows ≠ []
    ∧ (∃ sections, build_patient_result_sections samplePatientFrame sampleColumnMap = some sections
      ∧ ∀ sec ∈ sections,
          List.Perm (sec.blocks.map RowBlock.row)
            (samplePatientFrame.rows.filter (fun r => decide (r.source = sec.source)))
          ∧ (∀ c, dateColumn samplePatientFrame.cols = some c →
              (sec.blocks.map RowBlock.row).Pairwise
                (fun r1 r2 => descNaLast (Row.get r1 c) (Row.get r2 c) = true))
          ∧ (dateColumn samplePatientFrame.cols = none →
              sec.blocks.map RowBlock.row
                = samplePatientFrame.rows.filter (fun r => decide (r.source = sec.source)))
          ∧ (∀ b ∈ sec.blocks,
              b.cards.map Card.column
                = (displayColumns sampleColumnMap samplePatientFrame sec.source).filter
                    (fun c => samplePatientFrame.cols.contains c))
          ∧ (∀ schema, sampleColumnMap.lookup sec.source = some schema →
              ∀ b ∈ sec.blocks, ∀ card ∈ b.cards, card.column ∈ schema)
          ∧ (∀ b ∈ sec.blocks, ∀ card ∈ b.cards,
              card.text = format_value (b.row.get card.column)
              ∧ (b.row.get card.column = Val.na → card.text = "N/A"))) :=
  ⟨by decide, patient_sections_spec samplePatientFrame sampleColumnMap (by decide)⟩

/-- C5: given a patient record set, a source and a metric, the history builder
returns the empty placeholder figure whenever the metric column is absent, no
date column exists, or no usable point (row of that source with a value for
the metric) remains; otherwise it returns the line figure whose points are
exactly the usable rows' (date, value) pairs sorted ascending by date, with a
min-bound (resp. max-bound) overlay series over the same rows exactly when the
metric has reference columns, the bound column exists and some usable row has
a value in it; without reference columns there are no overlays. -/
theorem metric_history_spec (records : Frame) (source_name metric_key : String)
    (hsf : records.cols.contains "Source_File" = true) :
    (records.cols.contains metric_key = false →
      build_metric_history records source_name metric_key = empty_gauge_figure metric_key)
    ∧ (dateColumn records.cols = none →
      build_metric_history records source_name metric_key = empty_gauge_figure metric_key)
    ∧ ((records.rows.filter (fun r => decide (r.source = source_name))).filter
          (fun r => decide (r.get metric_key ≠ Val.na)) = [] →
      build_metric_history records source_name metric_key = empty_gauge_figure metric_key)
    ∧ (∀ date_col, dateColumn records.cols = some date_col →
        records.cols.contains metric_key = true →
        (records.rows.filter (fun r => decide (r.source = source_name))).filter
            (fun r => decide (r.get metric_key ≠ Val.na)) ≠ [] →
        ∃ pts minS maxS,
          build_metric_history records source_name metric_key = HistoryFig.lineFig pts minS maxS
          ∧ List.Perm pts
              (((records.rows.filter (fun r => decide (r.source = source_name))).filter
                  (fun r => decide (r.get metric_key ≠ Val.na))).map
                (fun r => (r.get date_col, r.get metric_key)))
          ∧ pts.Pairwise (fun p q => Val.keyLe p.1 q.1 = true)
          ∧ (∀ min_col max_col, REFERENCE_COLUMNS.lookup metric_key = some (min_col, max_col) →
              (minS.isSome = true ↔ (records.cols.contains min_col = true
                ∧ ∃ r ∈ (records.rows.filter (fun r => decide (r.source = source_name))).filter
                    (fun r => decide (r.get metric_key ≠ Val.na)), r.get min_col ≠ Val.na))
              ∧ (maxS.isSome = true ↔ (records.cols.contains max_col = true
                ∧ ∃ r ∈ (records.rows.filter (fun r => decide (r.source = source_name))).filter
                    (fun r => decide (r.get metric_key ≠ Val.na)), r.get max_col ≠ Val.na))
              ∧ (∀ series, minS = some series → List.Perm series
                  (((records.rows.filter (fun r => decide (r.source = source_name))).filter
                      (fun r => decide (r.get metric_key ≠ Val.na))).map
                    (fun r => (r.get date_col, r.get min_col))))
              ∧ (∀ series, maxS = some series → List.Perm series
                  (((records.rows.filter (fun r => decide (r.source = source_name))).filter
                      (fun r => decide (r.get metric_key ≠ Val.na))).map
                    (fun r => (r.get date_col, r.get max_col)))))
          ∧ (REFERENCE_COLUMNS.lookup metric_key = none → minS = none ∧ maxS = none)) := by
  refine ⟨?_, ?_, ?_, ?_⟩
  · intro hmk
    unfold build_metric_history
    by_cases h0 : records.rows.isEmpty
    · rw [if_pos h0]
    · rw [if_neg h0]
      simp only [hsf, Bool.not_true, Bool.false_eq_true, if_false, hmk, Bool.not_false,
        Bool.or_true]
      simp
  · intro hdc
    unfold build_metric_history
    by_cases h0 : records.rows.isEmpty
    · rw [if_pos h0]
    · rw [if_neg h0]
      simp only [hsf, Bool.not_true, Bool.false_eq_true, if_false]
      by_cases h1 : (records.rows.filter (fun r => decide (r.source = source_name))).isEmpty
        || !(records.cols.contains metric_key)
      · rw [if_pos h1]
      · rw [if_neg h1, hdc]
  · intro hus
    unfold build_metric_history
    by_cases h0 : records.rows.isEmpty
    · rw [if_pos h0]
    · rw [if_neg h0]
      simp only [hsf, Bool.not_true, Bool.false_eq_true, if_false]
      by_cases h1 : (records.rows.filter (fun r => decide (r.source = source_name))).isEmpty
        || !(records.cols.contains metric_key)
      · rw [if_pos h1]
      · rw [if_neg h1]
        cases hdc : dateColumn records.cols
        · rfl
        · rw [List.isEmpty_iff.mpr hus]
          rfl
  · intro date_col hdc hmk hus
    have hdfl : (records.rows.filter (fun r => decide (r.source = source_name))) ≠ [] := by
      intro h
      apply hus
      rw [h, List.filter_nil]
    have hrows : ¬ records.rows.isEmpty = true := by
      rw [List.isEmpty_iff]
      intro h
      apply hdfl
      rw [h, List.filter_nil]
    have h1 : ((records.rows.filter (fun r => decide (r.source = source_name))).isEmpty
        || !(records.cols.contains metric_key)) = false := by
      rw [hmk]
      simp [List.isEmpty_iff, hdfl]
    unfold build_metric_history
    rw [if_neg hrows]
    simp only [hsf, Bool.not_true, Bool.false_eq_true, if_false, h1, hdc]
    rw [if_neg (show ¬ ((records.rows.filter (fun r => decide (r.source = source_name))).filter
        (fun r => decide (r.get metric_key ≠ Val.na))).isEmpty = true by
      simpa [List.isEmpty_iff] using hus)]
    have hperm : List.Perm
        (sortBy (fun r1 r2 => Val.keyLe (r1.get date_col) (r2.get date_col))
          ((records.rows.filter (fun r => decide (r.source = source_name))).filter
            (fun r => decide (r.get metric_key ≠ Val.na))))
        ((records.rows.filter (fun r => decide (r.source = source_name))).filter
          (fun r => decide (r.get metric_key ≠ Val.na))) := sortBy_perm _ _
    have hpair := pairwise_sortBy (fun r1 r2 => Val.keyLe (Row.get r1 date_col) (Row.get r2 date_col))
      (fun a b d hab hbd => keyLe_trans _ _ _ hab hbd)
      (fun a b => keyLe_total (Row.get a date_col) (Row.get b date_col))
      ((records.rows.filter (fun r => decide (r.source = source_name))).filter
        (fun r => decide (r.get metric_key ≠ Val.na)))
    cases href : REFERENCE_COLUMNS.lookup metric_key with
    | none =>
      refine ⟨_, none, none, rfl, hperm.map _, hpair.map _ (fun a b h => h), ?_, fun _ => ⟨rfl, rfl⟩⟩
      intro mc xc h
      exact absurd h (by simp)
    | some p =>
      obtain ⟨min_col, max_col⟩ := p
      refine ⟨_, _, _, rfl, hperm.map _, hpair.map _ (fun a b h => h), ?_, ?_⟩
      · intro mc xc h
        have hpq := Option.some.inj h
        have hmc : min_col = mc := congrArg Prod.fst hpq
        have hxc : max_col = xc := congrArg Prod.snd hpq
        subst hmc
        subst hxc
        refine ⟨?_, ?_, ?_, ?_⟩
        · by_cases hcond : records.cols.contains min_col
            && (sortBy (fun r1 r2 => Val.keyLe (r1.get date_col) (r2.get date_col))
              ((records.rows.filter (fun r => decide (r.source = source_name))).filter
                (fun r => decide (r.get metric_key ≠ Val.na)))).any
              (fun r => decide (r.get min_col ≠ Val.na))
          · rw [if_pos hcond]
            simp only [Option.isSome_some, true_iff]
            rcases Bool.and_eq_true_iff.mp hcond with ⟨hc1, hc2⟩
            rcases List.any_eq_true.mp hc2 with ⟨r, hr, hr'⟩
            exact ⟨hc1, r, hperm.mem_iff.mp hr, by simpa using hr'⟩
          · rw [if_neg hcond]
            simp only [Option.isSome_none, Bool.false_eq_true, false_iff]
            rintro ⟨hc1, r, hr, hr'⟩
            apply hcond
            rw [hc1]
            simp only [Bool.true_and]
            exact List.any_eq_true.mpr ⟨r, hperm.mem_iff.mpr hr, by simpa using hr'⟩
        · by_cases hcond : records.cols.contains max_col
            && (sortBy (fun r1 r2 => Val.keyLe (r1.get date_col) (r2.get date_col))
              ((records.rows.filter (fun r => decide (r.source = source_name))).filter
                (fun r => decide (r.get metric_key ≠ Val.na)))).any
              (fun r => decide (r.get max_col ≠ Val.na))
          · rw [if_pos hcond]
            simp only [Option.isSome_some, true_iff]
            rcases Bool.and_eq_true_iff.mp hcond with ⟨hc1, hc2⟩
            rcases List.any_eq_true.mp hc2 with ⟨r, hr, hr'⟩
            exact ⟨hc1, r, hperm.mem_iff.mp hr, by simpa using hr'⟩
          · rw [if_neg hcond]
            simp only [Option.isSome_none, Bool.false_eq_true, false_iff]
            rintro ⟨hc1, r, hr, hr'⟩
            apply hcond
            rw [hc1]
            simp only [Bool.true_and]
            exact List.any_eq_true.mpr ⟨r, hperm.mem_iff.mpr hr, by simpa using hr'⟩
        · intro series hser
          split at hser
          · have h' := Option.some.inj hser
            subst h'
            exact hperm.map _
          · exact absurd hser (by simp)
        · intro series hser
          split at hser
          · have h' := Option.some.inj hser
            subst h'
            exact hperm.map _
          · exact absurd hser (by simp)
      · intro h
        exact absurd h (by simp)

/-- Witness for C5 at the sample record set (spec example: the two dated
hemoglobin rows must come back ascending). -/
theorem metric_history_spec_witness :
    sampleHistoryFrame.cols.contains "Source_File" = true
    ∧ ((sampleHistoryFrame.cols.contains "Гемоглобин" = false →
        build_metric_history sampleHistoryFrame "анализ_крови.csv" "Гемоглобин"
          = empty_gauge_figure "Гемоглобин")
      ∧ (dateColumn sampleHistoryFrame.cols = none →
        build_metric_history sampleHistoryFrame "анализ_крови.csv" "Гемоглобин"
          = empty_gauge_figure "Гемоглобин")
      ∧ ((sampleHistoryFrame.rows.filter (fun r => decide (r.source = "анализ_крови.csv"))).filter
            (fun r => decide (r.get "Гемоглобин" ≠ Val.na)) = [] →
        build_metric_history sampleHistoryFrame "анализ_крови.csv" "Гемоглобин"
          = empty_gauge_figure "Гемоглобин")
      ∧ (∀ date_col, dateColumn sampleHistoryFrame.cols = some date_col →
          sampleHistoryFrame.cols.contains "Гемоглобин" = true →
          (sampleHistoryFrame.rows.filter (fun r => decide (r.source = "анализ_крови.csv"))).filter
              (fun r => decide (r.get "Гемоглобин" ≠ Val.na)) ≠ [] →
          ∃ pts minS maxS,
            build_metric_history sampleHistoryFrame "анализ_крови.csv" "Гемоглобин"
              = HistoryFig.lineFig pts minS maxS
            ∧ List.Perm pts
                (((sampleHistoryFrame.rows.filter (fun r => decide (r.source = "анализ_крови.csv"))).filter
                    (fun r => decide (r.get "Гемоглобин" ≠ Val.na))).map
                  (fun r => (r.get date_col, r.get "Гемоглобин")))
            ∧ pts.Pairwise (fun p q => Val.keyLe p.1 q.1 = true)
            ∧ (∀ min_col max_col, REFERENCE_COLUMNS.lookup "Гемоглобин" = some (min_col, max_col) →
                (minS.isSome = true ↔ (sampleHistoryFrame.cols.contains min_col = true
                  ∧ ∃ r ∈ (sampleHistoryFrame.rows.filter (fun r => decide (r.source = "анализ_крови.csv"))).filter
                      (fun r => decide (r.get "Гемоглобин" ≠ Val.na)), r.get min_col ≠ Val.na))
                ∧ (maxS.isSome = true ↔ (sampleHistoryFrame.cols.contains max_col = true
                  ∧ ∃ r ∈ (sampleHistoryFrame.rows.filter (fun r => decide (r.source = "анализ_крови.csv"))).filter
                      (fun r => decide (r.get "Гемоглобин" ≠ Val.na)), r.get max_col ≠ Val.na))
                ∧ (∀ series, minS = some series → List.Perm series
                    (((sampleHistoryFrame.rows.filter (fun r => decide (r.source = "анализ_крови.csv"))).filter
                        (fun r => decide (r.get "Гемоглобин" ≠ Val.na))).map
                      (fun r => (r.get date_col, r.get min_col))))
                ∧ (∀ series, maxS = some series → List.Perm series
                    (((sampleHistoryFrame.rows.filter (fun r => decide (r.source = "анализ_крови.csv"))).filter
                        (fun r => decide (r.get "Гемоглобин" ≠ Val.na))).map
                      (fun r => (r.get date_col, r.get max_col)))))
            ∧ (REFERENCE_COLUMNS.lookup "Гемоглобин" = none → minS = none ∧ maxS = none))) :=
  ⟨by decide, metric_history_spec sampleHistoryFrame "анализ_крови.csv" "Гемоглобин" (by decide)⟩

/-- C6: on a metric-card activation, the Selected Metric store is set to the
card's metric key exactly when that key is a column of the distribution-plot
blood table, and is returned unchanged (no-op) for every key not in that
table.  The hypothesis that the key is non-empty is sound: card metric ids
are column names of parsed files, which are never the empty string (only an
empty-string key could be in the table yet be rejected by the `metric and ...`
truthiness guard). -/
theorem selected_metric_spec (blood_cols : List String) (metric : String)
    (current : Option String) (hm : metric ≠ "") :
    (blood_cols.contains metric = true →
      set_selected_metric blood_cols (some metric) current = some metric)
    ∧ (blood_cols.contains metric = false →
      set_selected_metric blood_cols (some metric) current = current)
    ∧ set_selected_metric blood_cols none current = current := by
  refine ⟨?_, ?_, rfl⟩
  · intro h
    show (if metric ≠ "" ∧ blood_cols.contains metric = true then some metric else current)
      = some metric
    rw [if_pos ⟨hm, h⟩]
  · intro h
    show (if metric ≠ "" ∧ blood_cols.contains metric = true then some metric else current)
      = current
    rw [if_neg (fun hc => by
      have hc2 := hc.2
      rw [h] at hc2
      exact Bool.false_ne_true hc2)]

/-- Witness for C6: `Гемоглобин` is in the blood table and is selected;
`Цвет` is not and leaves the prior selection unchanged. -/
theorem selected_metric_spec_witness :
    (("Гемоглобин" : String) ≠ ""
      ∧ ["Гемоглобин", "Тромбоциты"].contains "Гемоглобин" = true
      ∧ set_selected_metric ["Гемоглобин", "Тромбоциты"] (some "Гемоглобин") (some "Тромбоциты")
          = some "Гемоглобин")
    ∧ (("Цвет" : String) ≠ ""
      ∧ ["Гемоглобин", "Тромбоциты"].contains "Цвет" = false
      ∧ set_selected_metric ["Гемоглобин", "Тромбоциты"] (some "Цвет") (some "Тромбоциты")
          = some "Тромбоциты") :=
  ⟨⟨by decide, by decide,
    (selected_metric_spec ["Гемоглобин", "Тромбоциты"] "Гемоглобин" (some "Тромбоциты")
      (by decide)).1 (by decide)⟩,
   ⟨by decide, by decide,
    (selected_metric_spec ["Гемоглобин", "Тромбоциты"] "Цвет" (some "Тромбоциты")
      (by decide)).2.1 (by decide)⟩⟩

/-- C7: every gauge history panel is created collapsed
(`build_metric_gauge_block` sets `display: 'none'`); after n activations the
panel is shown exactly when n is odd (`n_clicks and n_clicks % 2 == 1`), so
two further activations restore the prior visibility; and the derived figure
is `_build_metric_history` of the stored patient records and the toggle's own
source/metric — independent of the click count, of the row id, and of every
other toggle's state. -/
theorem gauge_toggle_spec :
    (∀ (row : List (String × Val)) (rid mid : String)
        (builder : List (String × Val) → GaugeView) (src : String),
      (build_metric_gauge_block row rid mid builder src).figure_visible = false
      ∧ (build_metric_gauge_block row rid mid builder src).figure = empty_gauge_figure mid)
    ∧ (∀ (n : ℕ) (records : Frame) (r m s : String),
        (toggle_gauge_plot n records r m s).2 = decide (n % 2 = 1))
    ∧ (∀ (n : ℕ) (records : Frame) (r m s : String),
        (toggle_gauge_plot (n + 2) records r m s).2 = (toggle_gauge_plot n records r m s).2)
    ∧ (∀ (n n' : ℕ) (records : Frame) (r r' m s : String),
        (toggle_gauge_plot n records r m s).1 = (toggle_gauge_plot n' records r' m s).1)
    ∧ (∀ (n : ℕ) (records : Frame) (r m s : String),
        (toggle_gauge_plot n records r m s).1 = build_metric_history records s m) := by
  have hodd : ∀ n : ℕ, (decide (n ≠ 0) && decide (n % 2 = 1)) = decide (n % 2 = 1) := by
    intro n
    cases n with
    | zero => rfl
    | succ k => simp
  refine ⟨fun _ _ _ _ _ => ⟨rfl, rfl⟩, ?_, ?_, fun _ _ _ _ _ _ _ => rfl, fun _ _ _ _ _ => rfl⟩
  · intro n records r m s
    exact hodd n
  · intro n records r m s
    show (decide (n + 2 ≠ 0) && decide ((n + 2) % 2 = 1)) = (decide (n ≠ 0) && decide (n % 2 = 1))
    rw [hodd, hodd, Nat.add_mod_right]

/-- C8 (`spec-modelled`, see `SEMICOLON_SOURCES`): the loader's delimiter rule
is per-source — the known source `анализ_крови.csv` is parsed with semicolon
while the other sources use comma, so the rule is not a single global
constant — and both delimited text (.csv) and spreadsheet (.xlsx) files are
accepted. -/
theorem loader_delimiter_rule :
    delimiter_for "анализ_крови.csv" = ';'
    ∧ delimiter_for "анализ_мочи.csv" = ','
    ∧ delimiter_for "blood_count_dataset.csv" = ','
    ∧ delimiter_for "анализ_крови.csv" ≠ delimiter_for "анализ_мочи.csv"
    ∧ accepts_file "анализ_крови.csv" = true
    ∧ accepts_file "анализ_крови.xlsx" = true
    ∧ accepts_file "анализ_крови.txt" = false := by
  decide

theorem load_parsed_empty_iff (d : Bool) (files : List SourceFile) :
    ((if d then sortBy (fun f1 f2 => lexLe f1.name.data f2.name.data) files else []).filterMap
        (fun f => f.parsed.map (fun t => (f.name, t)))).isEmpty = true
      ↔ (d = false ∨ ∀ f ∈ files, f.parsed = none) := by
  cases d
  · simp
  · rw [show (if true then sortBy (fun f1 f2 => lexLe f1.name.data f2.name.data) files else [])
        = sortBy (fun f1 f2 => lexLe f1.name.data f2.name.data) files from rfl]
    rw [List.isEmpty_iff, List.filterMap_eq_nil_iff]
    constructor
    · intro h
      refine Or.inr ?_
      intro f hf
      have hm := h f ((sortBy_perm _ files).mem_iff.mpr hf)
      simpa using hm
    · rintro (h | h)
      · exact absurd h (by simp)
      · intro f hf
        have hm := h f ((sortBy_perm _ files).mem_iff.mp hf)
        simp [hm]

/-- C9: `load_all_datasets` raises an error exactly when zero files parsed
successfully (the directory is missing or every parse raised); when it
succeeds, the column map records exactly the successfully parsed files (a file
whose parse raises is skipped, every file that parses is kept); and at
startup a load error, or an absent `blood_count_dataset.csv`, aborts with a
diagnostic message — the dashboard is served only when the load succeeded and
the blood file is present. -/
theorem loader_error_policy_spec (data_dir_exists : Bool) (files : List SourceFile)
    (blood_file : Option RawTable) :
    ((∃ e, load_all_datasets data_dir_exists files = Except.error e)
      ↔ (data_dir_exists = false ∨ ∀ f ∈ files, f.parsed = none))
    ∧ (∀ rows cmap, load_all_datasets data_dir_exists files = Except.ok (rows, cmap) →
        (∀ nc ∈ cmap, ∃ f ∈ files, f.name = nc.1 ∧ ∃ t, f.parsed = some t ∧ nc.2 = t.cols)
        ∧ (∀ f ∈ files, ∀ t, f.parsed = some t → (f.name, t.cols) ∈ cmap))
    ∧ (∀ e, load_all_datasets data_dir_exists files = Except.error e →
        startup_load data_dir_exists files blood_file = StartupResult.aborted ("Error: " ++ e))
    ∧ (∀ rows cmap, load_all_datasets data_dir_exists files = Except.ok (rows, cmap) →
        blood_file = none →
        startup_load data_dir_exists files blood_file
          = StartupResult.aborted "Error: 'blood_count_dataset.csv' not found in the data directory.")
    ∧ (∀ rows cmap b, load_all_datasets data_dir_exists files = Except.ok (rows, cmap) →
        blood_file = some b →
        startup_load data_dir_exists files blood_file = StartupResult.serving rows cmap b) := by
  refine ⟨?_, ?_, ?_, ?_, ?_⟩
  · constructor
    · rintro ⟨e, he⟩
      rw [← load_parsed_empty_iff data_dir_exists files]
      by_contra hp
      simp only [load_all_datasets] at he
      rw [if_neg hp] at he
      exact Except.noConfusion he
    · intro h
      rw [← load_parsed_empty_iff data_dir_exists files] at h
      refine ⟨"No CSV files found inside the 'data' directory.", ?_⟩
      simp only [load_all_datasets]
      rw [if_pos h]
  · intro rows cmap hok
    simp only [load_all_datasets] at hok
    by_cases hp : ((if data_dir_exists then
        sortBy (fun f1 f2 => lexLe f1.name.data f2.name.data) files else []).filterMap
        (fun f => f.parsed.map (fun t => (f.name, t)))).isEmpty
    · rw [if_pos hp] at hok
      exact Except.noConfusion hok
    · rw [if_neg hp] at hok
      have h2 := Except.ok.inj hok
      have hcm : cmap = ((if data_dir_exists then
          sortBy (fun f1 f2 => lexLe f1.name.data f2.name.data) files else []).filterMap
          (fun f => f.parsed.map (fun t => (f.name, t)))).map (fun nt => (nt.1, nt.2.cols)) :=
        (congrArg Prod.snd h2).symm
      have hd : data_dir_exists = true := by
        cases hdd : data_dir_exists
        · exfalso
          apply hp
          rw [hdd]
          rfl
        · rfl
      subst hcm
      constructor
      · intro nc hnc
        obtain ⟨nt, hmem, rfl⟩ := List.mem_map.mp hnc
        rw [List.mem_filterMap] at hmem
        obtain ⟨f, hf, hft⟩ := hmem
        cases hfp : f.parsed with
        | none =>
          rw [hfp] at hft
          exact absurd hft (by simp)
        | some t' =>
          rw [hfp] at hft
          simp only [Option.map_some'] at hft
          have hpair := Option.some.inj hft
          refine ⟨f, ?_, ?_, t', hfp, ?_⟩
          · rw [hd] at hf
            exact (sortBy_perm _ files).mem_iff.mp hf
          · exact congrArg Prod.fst hpair
          · have ht : nt.2 = t' := (congrArg Prod.snd hpair).symm
            rw [ht]
      · intro f hf t hft
        refine List.mem_map.mpr ⟨(f.name, t), ?_, rfl⟩
        refine List.mem_filterMap.mpr ⟨f, ?_, by rw [hft]; rfl⟩
        rw [hd]
        exact (sortBy_perm _ files).mem_iff.mpr hf
  · intro e he
    unfold startup_load
    rw [he]
  · intro rows cmap hok hbn
    unfold startup_load
    rw [hok, hbn]
  · intro rows cmap b hok hbs
    unfold startup_load
    rw [hok, hbs]

/-- Witness for C9: with one good and one failing file, the loader succeeds
(skipping the failing file) and startup serves the dashboard when the blood
file is present but aborts with the diagnostic when it is absent. -/
theorem loader_error_policy_witness :
    load_all_datasets true [sampleGoodFile, sampleBadFile]
      = Except.ok ([{ source := "blood_count_dataset.csv"
                      cells := [("ID", Val.str "1"), ("Hemoglobin", Val.str "13.2")] }],
          [("blood_count_dataset.csv", ["ID", "Hemoglobin"])])
    ∧ startup_load true [sampleGoodFile, sampleBadFile] (some sampleGoodTable)
        = StartupResult.serving
            [{ source := "blood_count_dataset.csv"
               cells := [("ID", Val.str "1"), ("Hemoglobin", Val.str "13.2")] }]
            [("blood_count_dataset.csv", ["ID", "Hemoglobin"])] sampleGoodTable
    ∧ startup_load true [sampleGoodFile, sampleBadFile] none
        = StartupResult.aborted "Error: 'blood_count_dataset.csv' not found in the data directory." :=
  ⟨rfl,
   (loader_error_policy_spec true [sampleGoodFile, sampleBadFile] (some sampleGoodTable)).2.2.2.2
     [{ source := "blood_count_dataset.csv"
        cells := [("ID", Val.str "1"), ("Hemoglobin", Val.str "13.2")] }]
     [("blood_count_dataset.csv", ["ID", "Hemoglobin"])] sampleGoodTable rfl rfl,
   (loader_error_policy_spec true [sampleGoodFile, sampleBadFile] none).2.2.2.1
     [{ source := "blood_count_dataset.csv"
        cells := [("ID", Val.str "1"), ("Hemoglobin", Val.str "13.2")] }]
     [("blood_count_dataset.csv", ["ID", "Hemoglobin"])] rfl rfl⟩

/-- C10 (counterexample): a source file whose native header already contains
a `Source_File` column; the recorded column list is the file's original
header, so the map entry does contain `'Source_File'`, contradicting the
claim's "no entry's column list ever contains 'Source_File'". -/
theorem column_map_source_file_cex :
    load_all_datasets true [sourceColFile]
      = Except.ok ([{ source := "a.csv", cells := [("X", Val.str "1")] }],
          [("a.csv", ["Source_File", "X"])])
    ∧ "Source_File" ∈ ["Source_File", "X"] := by
  constructor
  · rfl
  · decide

/-- C10 (amended): for every `(rows, column_map)` returned by
`load_all_datasets`, each row's `Source_File` value is the name of a
successfully parsed file and is a key of the column map; each map entry
records that file's original column list as read from disk (the `Source_File`
tag is stamped only after the columns are recorded, so stamping never adds
`'Source_File'` to a recorded list) — an entry's column list contains
`'Source_File'` only when the file natively had such a column. -/
theorem column_map_invariants (d : Bool) (files : List SourceFile) (rows : List Row)
    (cmap : List (String × List String))
    (hok : load_all_datasets d files = Except.ok (rows, cmap)) :
    (∀ r ∈ rows, ∃ f ∈ files, r.source = f.name
      ∧ ∃ t, f.parsed = some t ∧ (f.name, t.cols) ∈ cmap)
    ∧ (∀ nc ∈ cmap, ∃ f ∈ files, f.name = nc.1 ∧ ∃ t, f.parsed = some t ∧ nc.2 = t.cols)
    ∧ (∀ nc ∈ cmap, "Source_File" ∈ nc.2 →
        ∃ f ∈ files, f.name = nc.1 ∧ ∃ t, f.parsed = some t ∧ "Source_File" ∈ t.cols) := by
  have hmapchar := (loader_error_policy_spec d files none).2.1 rows cmap hok
  simp only [load_all_datasets] at hok
  by_cases hp : ((if d then
      sortBy (fun f1 f2 => lexLe f1.name.data f2.name.data) files else []).filterMap
      (fun f => f.parsed.map (fun t => (f.name, t)))).isEmpty
  · rw [if_pos hp] at hok
    exact Except.noConfusion hok
  · rw [if_neg hp] at hok
    have h2 := Except.ok.inj hok
    have hrw : rows = (((if d then
        sortBy (fun f1 f2 => lexLe f1.name.data f2.name.data) files else []).filterMap
        (fun f => f.parsed.map (fun t => (f.name, t)))).map
          (fun nt => tagRows nt.1 nt.2)).flatten :=
      (congrArg Prod.fst h2).symm
    have hcm : cmap = ((if d then
        sortBy (fun f1 f2 => lexLe f1.name.data f2.name.data) files else []).filterMap
        (fun f => f.parsed.map (fun t => (f.name, t)))).map (fun nt => (nt.1, nt.2.cols)) :=
      (congrArg Prod.snd h2).symm
    have hd : d = true := by
      cases hdd : d
      · exfalso
        apply hp
        rw [hdd]
        rfl
      · rfl
    refine ⟨?_, hmapchar.1, ?_⟩
    · intro r hr
      rw [hrw] at hr
      rw [List.mem_flatten] at hr
      obtain ⟨l, hl, hrl⟩ := hr
      obtain ⟨nt, hmem, rfl⟩ := List.mem_map.mp hl
      obtain ⟨cs, _, rfl⟩ := List.mem_map.mp hrl
      rw [List.mem_filterMap] at hmem
      obtain ⟨f, hf, hft⟩ := hmem
      cases hfp : f.parsed with
      | none =>
        rw [hfp] at hft
        exact absurd hft (by simp)
      | some t' =>
        rw [hfp] at hft
        simp only [Option.map_some'] at hft
        have hpair := Option.some.inj hft
        have hn : nt.1 = f.name := (congrArg Prod.fst hpair).symm
        have ht : nt.2 = t' := (congrArg Prod.snd hpair).symm
        refine ⟨f, ?_, by rw [hn], t', hfp, ?_⟩
        · rw [hd] at hf
          exact (sortBy_perm _ files).mem_iff.mp hf
        · rw [hcm]
          refine List.mem_map.mpr ⟨nt, ?_, by rw [hn, ht]⟩
          rw [List.mem_filterMap]
          exact ⟨f, hf, by rw [hfp]; exact hft⟩
    · intro nc hnc hsf
      obtain ⟨f, hf, hn, t, hft, hcols⟩ := hmapchar.1 nc hnc
      exact ⟨f, hf, hn, t, hft, hcols ▸ hsf⟩

/-- Witness for C10 at the sample directory (one good file, one failing). -/
theorem column_map_invariants_witness :
    load_all_datasets true [sampleGoodFile, sampleBadFile]
      = Except.ok ([{ source := "blood_count_dataset.csv"
                      cells := [("ID", Val.str "1"), ("Hemoglobin", Val.str "13.2")] }],
          [("blood_count_dataset.csv", ["ID", "Hemoglobin"])])
    ∧ ((∀ r ∈ [({ source := "blood_count_dataset.csv"
                  cells := [("ID", Val.str "1"), ("Hemoglobin", Val.str "13.2")] } : Row)],
          ∃ f ∈ [sampleGoodFile, sampleBadFile], r.source = f.name
            ∧ ∃ t, f.parsed = some t
              ∧ (f.name, t.cols) ∈ [("blood_count_dataset.csv", ["ID", "Hemoglobin"])])
      ∧ (∀ nc ∈ [("blood_count_dataset.csv", ["ID", "Hemoglobin"])],
          ∃ f ∈ [sampleGoodFile, sampleBadFile], f.name = nc.1
            ∧ ∃ t, f.parsed = some t ∧ nc.2 = t.cols)
      ∧ (∀ nc ∈ [("blood_count_dataset.csv", ["ID", "Hemoglobin"])], "Source_File" ∈ nc.2 →
          ∃ f ∈ [sampleGoodFile, sampleBadFile], f.name = nc.1
            ∧ ∃ t, f.parsed = some t ∧ "Source_File" ∈ t.cols)) :=
  ⟨rfl,
   column_map_invariants true [sampleGoodFile, sampleBadFile]
     [{ source := "blood_count_dataset.csv"
        cells := [("ID", Val.str "1"), ("Hemoglobin", Val.str "13.2")] }]
     [("blood_count_dataset.csv", ["ID", "Hemoglobin"])] rfl⟩
